import Mathlib

/-!
Shallow embedding of `src/main.py` (video transcription/captioning backend):
the timestamp formatter `ts`, the caption-track builder `write_srt`, the
renderer `burn_subs` with its styled→plain fallback, the plan/quota
resolver (`limit_for`, `get_or_create_user`, `count_uses_this_month`,
`add_use`), the pipeline orchestrator `full_process`, and the billing
webhook `stripe_webhook`.

Python floats are modelled as rationals (`ℚ`); the external record store,
transcription engine and transcoder are modelled as explicit state /
oracle parameters; exceptions are modelled with `Except`.
-/

namespace Backend

/-- Python `int(q)` on a float: truncation toward zero. -/
def pyInt (q : ℚ) : ℤ := if 0 ≤ q then ⌊q⌋ else ⌈q⌉

/-- Python `a % b` on floats (result sign follows the divisor):
`a - b * floor (a / b)`. -/
def pyMod (a b : ℚ) : ℚ := a - b * ⌊a / b⌋

/-- Python `a // b` on floats: `floor (a / b)`, as a rational. -/
def pyFloorDiv (a b : ℚ) : ℚ := (⌊a / b⌋ : ℤ)

/-- Python `f"{n:02}"` for an integer `n`. -/
def pad2 (n : ℤ) : String := if 0 ≤ n ∧ n < 10 then "0" ++ toString n else toString n

/-- Python `f"{n:03}"` for an integer `n`. -/
def pad3 (n : ℤ) : String :=
  if 0 ≤ n ∧ n < 10 then "00" ++ toString n
  else if 0 ≤ n ∧ n < 100 then "0" ++ toString n
  else toString n

/-- `ts` from `src/main.py` lines 62-68: seconds to `"HH:MM:SS,mmm"`.
`ms = int((seconds - int(seconds)) * 1000)`, `h = int(seconds // 3600)`,
`m = int((seconds % 3600) // 60)`, `s = int(seconds % 60)`. -/
def ts (seconds : ℚ) : String :=
  pad2 (pyInt (pyFloorDiv seconds 3600)) ++ ":" ++
  pad2 (pyInt (pyFloorDiv (pyMod seconds 3600) 60)) ++ ":" ++
  pad2 (pyInt (pyMod seconds 60)) ++ "," ++
  pad3 (pyInt ((seconds - (pyInt seconds : ℤ)) * 1000))

/-- The timestamp formatter exactly as the spec (§4.4) words it, for
comparison with `ts`: identical except that the millisecond component is
`round((seconds - floor(seconds)) * 1000)` instead of the code's truncation. -/
def ts_specRound (seconds : ℚ) : String :=
  pad2 ⌊seconds / 3600⌋ ++ ":" ++
  pad2 ⌊pyMod seconds 3600 / 60⌋ ++ ":" ++
  pad2 ⌊pyMod seconds 60⌋ ++ "," ++
  pad3 (round ((seconds - (⌊seconds⌋ : ℤ)) * 1000))

/-- `limit_for` from `src/main.py` lines 110-111:
`{"gratuito": 3, "criador": 30, "pro": 9999}.get(plan, 0)`.
(`"gratuito"`/`"criador"` are the code's strings for the free/creator tiers.) -/
def limit_for (plan : String) : ℕ :=
  if plan = "gratuito" then 3
  else if plan = "criador" then 30
  else if plan = "pro" then 9999
  else 0

lemma pyInt_of_nonneg {q : ℚ} (h : 0 ≤ q) : pyInt q = ⌊q⌋ := by
  rw [pyInt, if_pos h]

lemma pyMod_nonneg (a : ℚ) {b : ℚ} (hb : 0 < b) : 0 ≤ pyMod a b := by
  have h1 : (⌊a / b⌋ : ℚ) ≤ a / b := Int.floor_le _
  have h2 : b * (⌊a / b⌋ : ℚ) ≤ b * (a / b) := mul_le_mul_of_nonneg_left h1 hb.le
  have h3 : b * (a / b) = a := by field_simp
  rw [pyMod]
  linarith

lemma pyInt_pyFloorDiv {a b : ℚ} (hb : 0 < b) (ha : 0 ≤ a) :
    pyInt (pyFloorDiv a b) = ⌊a / b⌋ := by
  have h0 : (0 : ℤ) ≤ ⌊a / b⌋ := Int.floor_nonneg.mpr (div_nonneg ha hb.le)
  have h0q : (0 : ℚ) ≤ (⌊a / b⌋ : ℤ) := by exact_mod_cast h0
  rw [pyFloorDiv, pyInt_of_nonneg h0q, Int.floor_intCast]

lemma ts_floor_repr (q : ℚ) (hq : 0 ≤ q) :
    ts q = pad2 ⌊q / 3600⌋ ++ ":" ++ pad2 ⌊pyMod q 3600 / 60⌋ ++ ":" ++
      pad2 ⌊pyMod q 60⌋ ++ "," ++ pad3 ⌊(q - (⌊q⌋ : ℤ)) * 1000⌋ := by
  have hms : (0 : ℚ) ≤ (q - (⌊q⌋ : ℤ)) * 1000 :=
    mul_nonneg (by linarith [Int.floor_le q]) (by norm_num)
  rw [ts, pyInt_pyFloorDiv (by norm_num : (0:ℚ) < 3600) hq,
    pyInt_pyFloorDiv (by norm_num : (0:ℚ) < 60) (pyMod_nonneg q (by norm_num)),
    pyInt_of_nonneg (pyMod_nonneg q (by norm_num : (0:ℚ) < 60)),
    pyInt_of_nonneg hq, pyInt_of_nonneg hms]

lemma ts_eval (q : ℚ) (hq : 0 ≤ q) (h m s ms : ℤ)
    (e1 : ⌊q / 3600⌋ = h) (e2 : ⌊pyMod q 3600 / 60⌋ = m) (e3 : ⌊pyMod q 60⌋ = s)
    (e4 : ⌊(q - (⌊q⌋ : ℤ)) * 1000⌋ = ms) :
    ts q = pad2 h ++ ":" ++ pad2 m ++ ":" ++ pad2 s ++ "," ++ pad3 ms := by
  rw [ts_floor_repr q hq, e1, e2, e3, e4]

lemma ts_zero : ts 0 = "00:00:00,000" := by
  rw [ts_eval 0 le_rfl 0 0 0 0 (by norm_num) (by norm_num [pyMod])
    (by norm_num [pyMod]) (by norm_num)]
  decide

lemma ts_mid : ts (7323/2) = "01:01:01,500" := by
  have f1 : ⌊(7323/2 : ℚ) / 3600⌋ = 1 := by rw [Int.floor_eq_iff]; norm_num
  have f2 : ⌊(7323/2 : ℚ) / 60⌋ = 61 := by rw [Int.floor_eq_iff]; norm_num
  have f3 : ⌊(7323/2 : ℚ)⌋ = 3661 := by rw [Int.floor_eq_iff]; norm_num
  have e2 : ⌊pyMod (7323/2 : ℚ) 3600 / 60⌋ = 1 := by
    rw [Int.floor_eq_iff]; norm_num [pyMod, f1]
  have e3 : ⌊pyMod (7323/2 : ℚ) 60⌋ = 1 := by
    rw [Int.floor_eq_iff]; norm_num [pyMod, f2]
  have e4 : ⌊((7323/2 : ℚ) - ((⌊(7323/2 : ℚ)⌋ : ℤ) : ℚ)) * 1000⌋ = 500 := by
    rw [f3, Int.floor_eq_iff]; norm_num
  rw [ts_eval (7323/2) (by norm_num) 1 1 1 500 f1 e2 e3 e4]
  decide

/-- **C4** (counterexample). At `seconds = 1/1024` (a value exactly
representable as a float) the code's `ts` truncates the millisecond
component to `000`, while the spec's formula `ms = round(...)` yields
`001`: the claim's rounding formula does not describe the code. -/
theorem ts_round_counterexample :
    ts (1/1024) = "00:00:00,000" ∧ ts_specRound (1/1024) = "00:00:00,001" ∧
      ts (1/1024) ≠ ts_specRound (1/1024) := by
  have f1 : ⌊(1/1024 : ℚ) / 3600⌋ = 0 := by rw [Int.floor_eq_iff]; norm_num
  have f1' : ⌊(1/1024 : ℚ) / 60⌋ = 0 := by rw [Int.floor_eq_iff]; norm_num
  have f3 : ⌊(1/1024 : ℚ)⌋ = 0 := by rw [Int.floor_eq_iff]; norm_num
  have e2 : ⌊pyMod (1/1024 : ℚ) 3600 / 60⌋ = 0 := by
    rw [Int.floor_eq_iff]; norm_num [pyMod, f1]
  have e3 : ⌊pyMod (1/1024 : ℚ) 60⌋ = 0 := by
    rw [Int.floor_eq_iff]; norm_num [pyMod, f1']
  have e4 : ⌊((1/1024 : ℚ) - ((⌊(1/1024 : ℚ)⌋ : ℤ) : ℚ)) * 1000⌋ = 0 := by
    rw [f3, Int.floor_eq_iff]; norm_num
  have e5 : round (((1/1024 : ℚ) - ((⌊(1/1024 : ℚ)⌋ : ℤ) : ℚ)) * 1000) = 1 := by
    rw [f3, round_eq, Int.floor_eq_iff]; norm_num
  have h1 : ts (1/1024) = "00:00:00,000" := by
    rw [ts_eval (1/1024) (by norm_num) 0 0 0 0 f1 e2 e3 e4]; decide
  have h2 : ts_specRound (1/1024) = "00:00:00,001" := by
    rw [ts_specRound, f1, e2, e3, e5]; decide
  refine ⟨h1, h2, ?_⟩
  rw [h1, h2]; decide

/-- **C4** (amended). For every non-negative `seconds`, `ts` returns
`"HH:MM:SS,mmm"` with `h = floor(seconds/3600)`,
`m = floor((seconds mod 3600)/60)`, `s = floor(seconds mod 60)` and
`ms = floor((seconds - floor(seconds)) * 1000)` — i.e. the millisecond
component is **truncated**, not rounded — each of `h, m, s` zero-padded to
width 2 and `ms` to width 3; in particular `ts 0 = "00:00:00,000"` and
`ts 3661.5 = "01:01:01,500"`. -/
theorem ts_truncates_ms (q : ℚ) (hq : 0 ≤ q) :
    (ts q = pad2 ⌊q / 3600⌋ ++ ":" ++ pad2 ⌊pyMod q 3600 / 60⌋ ++ ":" ++
      pad2 ⌊pyMod q 60⌋ ++ "," ++ pad3 ⌊(q - (⌊q⌋ : ℤ)) * 1000⌋) ∧
    ts 0 = "00:00:00,000" ∧ ts (7323/2) = "01:01:01,500" :=
  ⟨ts_floor_repr q hq, ts_zero, ts_mid⟩

/-- **C4** (witness): the amended theorem applied at `seconds = 3661.5`. -/
theorem ts_truncates_ms_witness :
    (0 : ℚ) ≤ 7323/2 ∧
    ((ts (7323/2) = pad2 ⌊(7323/2 : ℚ) / 3600⌋ ++ ":" ++
        pad2 ⌊pyMod (7323/2 : ℚ) 3600 / 60⌋ ++ ":" ++
        pad2 ⌊pyMod (7323/2 : ℚ) 60⌋ ++ "," ++
        pad3 ⌊((7323/2 : ℚ) - ((⌊(7323/2 : ℚ)⌋ : ℤ) : ℚ)) * 1000⌋) ∧
      ts 0 = "00:00:00,000" ∧ ts (7323/2) = "01:01:01,500") :=
  ⟨by norm_num, ts_truncates_ms (7323/2) (by norm_num)⟩

/-- Python `str.strip()`: drop leading and trailing whitespace. -/
def pyStrip (s : String) : String :=
  ⟨((s.data.dropWhile Char.isWhitespace).reverse.dropWhile Char.isWhitespace).reverse⟩

/-- Python `str.replace("\n", " ")`: every newline becomes a single space. -/
def pyReplaceNl (s : String) : String :=
  ⟨s.data.map (fun c => if c = '\n' then ' ' else c)⟩

/-- A timed text segment as produced by the transcription engine. -/
structure Segment where
  start : ℚ
  «end» : ℚ
  text : String
deriving DecidableEq

/-- One record of the caption track, `src/main.py` line 77:
`f"{i}\n{start} --> {end}\n{text}\n\n"`. -/
def srtBlock (i : ℕ) (s : Segment) : String :=
  toString i ++ "\n" ++ ts s.start ++ " --> " ++ ts s.«end» ++ "\n" ++
  pyReplaceNl (pyStrip s.text) ++ "\n\n"

/-- The loop of `write_srt` (`src/main.py` lines 70-77), carrying the
1-based counter of `enumerate(segments, start=1)`. -/
def write_srt_from (i : ℕ) : List Segment → String
  | [] => ""
  | s :: rest => srtBlock i s ++ write_srt_from (i + 1) rest

/-- `write_srt` from `src/main.py` lines 70-77: the document written to the
caption-track file. -/
def write_srt (segs : List Segment) : String := write_srt_from 1 segs

lemma join_cons (s : String) (l : List String) :
    String.join (s :: l) = s ++ String.join l := by
  simp [String.join_eq]; rfl

lemma write_srt_from_join (n : ℕ) (segs : List Segment) :
    write_srt_from n segs = String.join (segs.mapIdx fun i s => srtBlock (n + i) s) := by
  induction segs generalizing n with
  | nil => simp [write_srt_from, String.join]
  | cons a l ih =>
    rw [write_srt_from, ih (n + 1), List.mapIdx_cons, join_cons]
    have h2 : (fun i (s : Segment) => srtBlock (n + 1 + i) s)
        = fun i s => srtBlock (n + (i + 1)) s := by
      funext i s
      have h : n + 1 + i = n + (i + 1) := by omega
      rw [h]
    rw [h2, Nat.add_zero]

/-- **C5**. For the `i`-th segment (1-based) the builder emits exactly the
four-line block — ordinal, `"<start> --> <end>"` via `ts`, the text with
leading/trailing whitespace stripped and newlines replaced by single
spaces, then a blank separator line — and the empty list yields the empty
document, not an error. -/
theorem write_srt_blocks (segs : List Segment) :
    write_srt segs = String.join (segs.mapIdx fun i s =>
      toString (i + 1) ++ "\n" ++ ts s.start ++ " --> " ++ ts s.«end» ++ "\n" ++
      pyReplaceNl (pyStrip s.text) ++ "\n\n") ∧
    write_srt ([] : List Segment) = "" := by
  constructor
  · rw [write_srt, write_srt_from_join 1 segs]
    have hf : (fun i (s : Segment) => srtBlock (1 + i) s)
        = fun i (s : Segment) => toString (i + 1) ++ "\n" ++ ts s.start ++ " --> " ++
            ts s.«end» ++ "\n" ++ pyReplaceNl (pyStrip s.text) ++ "\n\n" := by
      funext i s
      rw [srtBlock, Nat.add_comm]
    rw [hf]
  · rfl

lemma ts_five : ts (5 : ℚ) = "00:00:05,000" := by
  have f1 : ⌊(5:ℚ) / 3600⌋ = 0 := by rw [Int.floor_eq_iff]; norm_num
  have f2 : ⌊(5:ℚ) / 60⌋ = 0 := by rw [Int.floor_eq_iff]; norm_num
  have f3 : ⌊(5:ℚ)⌋ = 5 := by rw [Int.floor_eq_iff]; norm_num
  have e2 : ⌊pyMod (5:ℚ) 3600 / 60⌋ = 0 := by
    rw [Int.floor_eq_iff]; norm_num [pyMod, f1]
  have e3 : ⌊pyMod (5:ℚ) 60⌋ = 5 := by
    rw [Int.floor_eq_iff]; norm_num [pyMod, f2]
  have e4 : ⌊((5:ℚ) - ((⌊(5:ℚ)⌋ : ℤ) : ℚ)) * 1000⌋ = 0 := by
    rw [f3]; norm_num
  rw [ts_eval 5 (by norm_num) 0 0 5 0 f1 e2 e3 e4]
  decide

lemma ts_two : ts (2 : ℚ) = "00:00:02,000" := by
  have f1 : ⌊(2:ℚ) / 3600⌋ = 0 := by rw [Int.floor_eq_iff]; norm_num
  have f2 : ⌊(2:ℚ) / 60⌋ = 0 := by rw [Int.floor_eq_iff]; norm_num
  have f3 : ⌊(2:ℚ)⌋ = 2 := by rw [Int.floor_eq_iff]; norm_num
  have e2 : ⌊pyMod (2:ℚ) 3600 / 60⌋ = 0 := by
    rw [Int.floor_eq_iff]; norm_num [pyMod, f1]
  have e3 : ⌊pyMod (2:ℚ) 60⌋ = 2 := by
    rw [Int.floor_eq_iff]; norm_num [pyMod, f2]
  have e4 : ⌊((2:ℚ) - ((⌊(2:ℚ)⌋ : ℤ) : ℚ)) * 1000⌋ = 0 := by
    rw [f3]; norm_num
  rw [ts_eval 2 (by norm_num) 0 0 2 0 f1 e2 e3 e4]
  decide

/-- **C6**. The code has no `end ≥ start` guard: on a segment with
`end < start` (here `start = 5`, `end = 2`) `write_srt` silently emits the
negative-duration caption block instead of failing with
`MalformedSegmentError` — `write_srt` is total (return type `String`, no
error channel). -/
theorem write_srt_no_guard :
    write_srt [{ start := 5, «end» := 2, text := "oops" }] =
      "1\n00:00:05,000 --> 00:00:02,000\noops\n\n" ∧
    ({ start := 5, «end» := 2, text := "oops" : Segment }).«end» <
      ({ start := 5, «end» := 2, text := "oops" : Segment }).start := by
  constructor
  · show srtBlock 1 _ ++ write_srt_from 2 [] = _
    rw [srtBlock, write_srt_from]
    show (toString 1 ++ "\n" ++ ts 5 ++ " --> " ++ ts 2 ++ "\n" ++
      pyReplaceNl (pyStrip "oops") ++ "\n\n") ++ "" = _
    rw [ts_five, ts_two]
    decide
  · norm_num

/-- **C3**. The plan-to-allowance mapping: the free tier (`"gratuito"`)
maps to 3, the creator tier (`"criador"`) to 30, `"pro"` to 9999, and every
other string to 0 (fail-closed). -/
theorem limit_for_table :
    limit_for "gratuito" = 3 ∧ limit_for "criador" = 30 ∧ limit_for "pro" = 9999 ∧
    ∀ p : String, p ≠ "gratuito" → p ≠ "criador" → p ≠ "pro" → limit_for p = 0 := by
  refine ⟨rfl, rfl, rfl, ?_⟩
  intro p h1 h2 h3
  rw [limit_for, if_neg h1, if_neg h2, if_neg h3]

/-- **C3** (witness): the mapping evaluated on all three known tiers and on
the unmapped string `"basic"`. -/
theorem limit_for_table_witness :
    limit_for "gratuito" = 3 ∧ limit_for "criador" = 30 ∧
    limit_for "pro" = 9999 ∧ limit_for "basic" = 0 :=
  ⟨limit_for_table.1, limit_for_table.2.1, limit_for_table.2.2.1,
    limit_for_table.2.2.2 "basic" (by decide) (by decide) (by decide)⟩

/-- The final path component of a path string (Python
`os.path.basename` / `pathlib.Path(...).name`). -/
def fileName (p : String) : String :=
  ⟨((p.data.reverse.takeWhile (fun c => c ≠ '/'))).reverse⟩

/-- Everything up to and including the last `/` (the parent part kept by
`Path.with_name`). -/
def parentOf (p : String) : String :=
  ⟨((p.data.reverse.dropWhile (fun c => c ≠ '/'))).reverse⟩

/-- Split a file name into `(stem, suffix)` as `pathlib` does: the suffix
starts at the last dot provided that dot is neither the first nor the last
character of the name; otherwise the suffix is empty. -/
def splitExt (name : String) : String × String :=
  let cs := name.data
  let pre := cs.reverse.takeWhile (fun c => c ≠ '.')
  if pre.length + 1 < cs.length ∧ 0 < pre.length then
    (⟨cs.take (cs.length - 1 - pre.length)⟩, ⟨'.' :: pre.reverse⟩)
  else (name, "")

/-- The renderer's output path, `src/main.py` lines 81-82:
`base.with_name(base.stem + "_final.mp4")` — the extension is hard-coded
to `.mp4`. -/
def burnOutName (video : String) : String :=
  parentOf video ++ (splitExt (fileName video)).1 ++ "_final.mp4"

/-- One invocation of the external transcoder (ffmpeg): input video, the
`-vf` filter string, output path. -/
structure FfmpegCmd where
  input : String
  vf : String
  output : String
deriving DecidableEq

/-- The styled invocation of `src/main.py` lines 93-99: subtitle overlay
with `force_style` parameters. -/
def styledCmd (video srt : String) : FfmpegCmd :=
  { input := video
    vf := "subtitles=" ++ srt ++
      ":force_style=\x27FontName=Arial,FontSize=40,PrimaryColour=&H00FFFFFF,OutlineColour=&H00000000,BorderStyle=1,Outline=3\x27"
    output := burnOutName video }

/-- The plain fallback invocation of `src/main.py` lines 102-105: same
subtitle overlay, no style parameters. -/
def plainCmd (video srt : String) : FfmpegCmd :=
  { input := video, vf := "subtitles=" ++ srt, output := burnOutName video }

/-- `burn_subs` from `src/main.py` lines 79-107. The external transcoder is
the oracle `exec` (`true` = process exited 0); `srtExists` models the
`os.path.exists(srt_path)` check. Returns the result together with the
list of transcoder invocations actually made, in order. -/
def burn_subs (exec : FfmpegCmd → Bool) (srtExists : Bool) (video srt : String) :
    Except String String × List FfmpegCmd :=
  if srtExists = false then
    (Except.error ("SRT não encontrado: " ++ srt), [])
  else if exec (styledCmd video srt) then
    (Except.ok (burnOutName video), [styledCmd video srt])
  else if exec (plainCmd video srt) then
    (Except.ok (burnOutName video), [styledCmd video srt, plainCmd video srt])
  else
    (Except.error "RenderError", [styledCmd video srt, plainCmd video srt])

/-- **C7**. Per call the renderer makes at most two transcoder
invocations: the styled one alone when it succeeds (the fallback is never
invoked), otherwise exactly one retry with the same subtitle overlay and
no style parameters; the call succeeds iff either invocation succeeds, and
when both fail it returns the render error with no further retries. -/
theorem burn_subs_two_attempts (exec : FfmpegCmd → Bool) (video srt : String) :
    (burn_subs exec true video srt).2.length ≤ 2 ∧
    (burn_subs exec true video srt).2 =
      (if exec (styledCmd video srt) then [styledCmd video srt]
       else [styledCmd video srt, plainCmd video srt]) ∧
    ((burn_subs exec true video srt).1 = Except.ok (burnOutName video) ↔
      (exec (styledCmd video srt) || exec (plainCmd video srt)) = true) ∧
    (exec (styledCmd video srt) = false → exec (plainCmd video srt) = false →
      (burn_subs exec true video srt).1 = Except.error "RenderError") ∧
    (plainCmd video srt).vf = "subtitles=" ++ srt ∧
    (plainCmd video srt).input = (styledCmd video srt).input ∧
    (plainCmd video srt).output = (styledCmd video srt).output := by
  rw [burn_subs]
  cases hs : exec (styledCmd video srt) <;> cases hp : exec (plainCmd video srt) <;>
    simp [hs, hp, plainCmd, styledCmd]

/-- **C7** (witness): a transcoder for which the styled invocation fails
and the plain one succeeds, on a concrete video/track pair. -/
theorem burn_subs_two_attempts_witness :
    (burn_subs (fun c => c.vf == "subtitles=v.srt") true "v.mp4" "v.srt").2.length ≤ 2 ∧
    (burn_subs (fun c => c.vf == "subtitles=v.srt") true "v.mp4" "v.srt").2 =
      (if (fun c : FfmpegCmd => c.vf == "subtitles=v.srt") (styledCmd "v.mp4" "v.srt")
       then [styledCmd "v.mp4" "v.srt"]
       else [styledCmd "v.mp4" "v.srt", plainCmd "v.mp4" "v.srt"]) ∧
    ((burn_subs (fun c => c.vf == "subtitles=v.srt") true "v.mp4" "v.srt").1 =
        Except.ok (burnOutName "v.mp4") ↔
      ((fun c : FfmpegCmd => c.vf == "subtitles=v.srt") (styledCmd "v.mp4" "v.srt") ||
       (fun c : FfmpegCmd => c.vf == "subtitles=v.srt") (plainCmd "v.mp4" "v.srt")) = true) ∧
    ((fun c : FfmpegCmd => c.vf == "subtitles=v.srt") (styledCmd "v.mp4" "v.srt") = false →
      (fun c : FfmpegCmd => c.vf == "subtitles=v.srt") (plainCmd "v.mp4" "v.srt") = false →
      (burn_subs (fun c => c.vf == "subtitles=v.srt") true "v.mp4" "v.srt").1 =
        Except.error "RenderError") ∧
    (plainCmd "v.mp4" "v.srt").vf = "subtitles=" ++ "v.srt" ∧
    (plainCmd "v.mp4" "v.srt").input = (styledCmd "v.mp4" "v.srt").input ∧
    (plainCmd "v.mp4" "v.srt").output = (styledCmd "v.mp4" "v.srt").output :=
  burn_subs_two_attempts (fun c => c.vf == "subtitles=v.srt") "v.mp4" "v.srt"

/-- **C8** (counterexample). For the input `"a.mov"` the renderer's output
path is `"a_final.mp4"`: the `.mp4` extension is hard-coded, so the output
is **not** `<stem>_final<original-ext>` (` = "a_final.mov"`) as claimed. -/
theorem burn_subs_ext_counterexample :
    (burn_subs (fun _ => true) true "a.mov" "a.srt").1 = Except.ok "a_final.mp4" ∧
    (splitExt (fileName "a.mov")).1 ++ "_final" ++ (splitExt (fileName "a.mov")).2 =
      "a_final.mov" ∧
    ("a_final.mp4" : String) ≠ "a_final.mov" := by
  exact ⟨rfl, by decide, by decide⟩

/-- **C8** (amended). The renderer's output path is always
`<stem>_final.mp4` (parent directory kept); this coincides with the
claimed `<stem>_final<original-ext>` exactly when the input's extension is
`.mp4` — which holds for every orchestrator-produced input, since uploads
are saved with extension `.mp4`. -/
theorem burn_subs_out_name (video srt : String)
    (h : (splitExt (fileName video)).2 = ".mp4") :
    burnOutName video = parentOf video ++ (splitExt (fileName video)).1 ++
      "_final" ++ (splitExt (fileName video)).2 ∧
    (burn_subs (fun _ => true) true video srt).1 = Except.ok (burnOutName video) := by
  constructor
  · rw [burnOutName, h,
      String.append_assoc (parentOf video ++ (splitExt (fileName video)).1) "_final" ".mp4"]
    rfl
  · rw [burn_subs]
    simp

/-- **C8** (witness): the amended theorem at the orchestrator-shaped input
`"temp/u.mp4"`. -/
theorem burn_subs_out_name_witness :
    (splitExt (fileName "temp/u.mp4")).2 = ".mp4" ∧
    (burnOutName "temp/u.mp4" = parentOf "temp/u.mp4" ++
        (splitExt (fileName "temp/u.mp4")).1 ++ "_final" ++
        (splitExt (fileName "temp/u.mp4")).2 ∧
      (burn_subs (fun _ => true) true "temp/u.mp4" "temp/u.srt").1 =
        Except.ok (burnOutName "temp/u.mp4")) :=
  ⟨by decide, burn_subs_out_name "temp/u.mp4" "temp/u.srt" (by decide)⟩

/-- A row of the `usos` table: one `UsageRecord`. `data` is the UTC
insertion timestamp (abstract instant). -/
structure Uso where
  email : String
  video_nome : String
  plano : String
  data : ℕ
deriving DecidableEq

/-- The record store: table `usuarios` as `(email, plano)` rows and table
`usos` as `Uso` rows. -/
structure Db where
  usuarios : List (String × String)
  usos : List Uso
deriving DecidableEq

/-- `get_or_create_user` from `src/main.py` lines 113-120. `cfg` is whether
the store client is configured (`supabase` non-`None`). Returns the plan
and the possibly-updated store. -/
def get_or_create_user (cfg : Bool) (db : Db) (email : String) : String × Db :=
  if cfg = false then ("gratuito", db)
  else
    match db.usuarios.find? (fun u => u.1 == email) with
    | none => ("gratuito", { db with usuarios := db.usuarios ++ [(email, "gratuito")] })
    | some u => (u.2, db)

/-- `count_uses_this_month` from `src/main.py` lines 122-131: the number of
`usos` rows for `email` with `data ≥ monthStart` (first instant of the
current UTC month). -/
def count_uses_this_month (cfg : Bool) (db : Db) (monthStart : ℕ) (email : String) : ℕ :=
  if cfg = false then 0
  else (db.usos.filter (fun u => u.email == email && monthStart ≤ u.data)).length

/-- `add_use` from `src/main.py` lines 133-135: append one usage row (no-op
when the store is unconfigured). -/
def add_use (cfg : Bool) (db : Db) (email video_nome plan : String) (now : ℕ) : Db :=
  if cfg = false then db
  else { db with usos := db.usos ++
    [{ email := email, video_nome := video_nome, plano := plan, data := now }] }

/-- The 403 message of `src/main.py` line 150:
`f"Limite do plano '{plan}' atingido ({limit}/mês). Faça upgrade."`. -/
def quotaMsg (plan : String) (limit : ℕ) : String :=
  "Limite do plano \x27" ++ plan ++ "\x27 atingido (" ++ toString limit ++
    "/mês). Faça upgrade."

/-- Python `p.rsplit(".", 1)[0]`: everything before the last dot (the whole
string when there is no dot). -/
def beforeLastDot (p : String) : String :=
  if p.data.contains '.' then ⟨((p.data.reverse.dropWhile (fun c => c ≠ '.')).tail).reverse⟩
  else p

/-- Observable side effects of one `/full_process` request, in order:
temp file saved, audio extracted, engine transcription completed, caption
track written (with its content), one external transcoder invocation. -/
inductive Ev where
  | savedTemp (path : String)
  | extracted (audio : String)
  | transcribed
  | wroteSrt (path : String) (content : String)
  | invoked (cmd : FfmpegCmd)
deriving DecidableEq

def isTranscribedEv : Ev → Bool
  | Ev.transcribed => true
  | _ => false

def isWroteSrtEv : Ev → Bool
  | Ev.wroteSrt _ _ => true
  | _ => false

def isInvokedEv : Ev → Bool
  | Ev.invoked _ => true
  | _ => false

/-- The environment of one request: store configuration flag, UTC month
start and current instant, the fresh uuid for temp files, and oracles for
the three external collaborators (extraction exit status, transcription
engine result — `none` models an engine exception — and the render
transcoder). -/
structure Env where
  cfg : Bool
  monthStart : ℕ
  now : ℕ
  tempId : String
  extractOk : Bool
  transcribe : Option (List Segment)
  exec : FfmpegCmd → Bool

/-- `full_process` from `src/main.py` lines 141-166: email validation,
quota gate, then save-temp → extract → transcribe → write track → render →
record use. Returns the HTTP-level result (`(status, message)` on error,
the streamed output path on success), the final store, and the ordered
side-effect trace. -/
def full_process (env : Env) (db : Db) (email : String) :
    Except (ℕ × String) String × Db × List Ev :=
  if (email == "") || !(email.data.contains '@') then
    (Except.error (400, "Informe um e-mail válido."), db, [])
  else
    let r := get_or_create_user env.cfg db email
    let plan := r.1
    let db1 := r.2
    if limit_for plan ≤ count_uses_this_month env.cfg db1 env.monthStart email then
      (Except.error (403, quotaMsg plan (limit_for plan)), db1, [])
    else
      let video_path := "temp/" ++ env.tempId ++ ".mp4"
      if env.extractOk = false then
        (Except.error (500, "ExtractionError"), db1, [Ev.savedTemp video_path])
      else
        let audio_path := beforeLastDot video_path ++ ".mp3"
        match env.transcribe with
        | none =>
          (Except.error (500, "TranscriptionError"), db1,
            [Ev.savedTemp video_path, Ev.extracted audio_path])
        | some segs =>
          let srt_path := beforeLastDot video_path ++ ".srt"
          let evs := [Ev.savedTemp video_path, Ev.extracted audio_path, Ev.transcribed,
            Ev.wroteSrt srt_path (write_srt segs)]
          match burn_subs env.exec true video_path srt_path with
          | (Except.error _, trace) =>
            (Except.error (500, "RenderError"), db1, evs ++ trace.map Ev.invoked)
          | (Except.ok final_path, trace) =>
            (Except.ok final_path,
             add_use env.cfg db1 email (fileName video_path) plan env.now,
             evs ++ trace.map Ev.invoked)

/-- A verified billing event as decoded by the payment provider's
`construct_event`. -/
structure StripeEvent where
  type : String
  email : String
deriving DecidableEq

/-- `stripe_webhook` from `src/main.py` lines 168-183. `secretCfg`/`dbCfg`
are whether the webhook secret and the store client are configured;
`verified` is the signature-verification outcome (`none` = verification
raised). Returns the response body's `status` string and the store. -/
def stripe_webhook (secretCfg dbCfg : Bool) (verified : Option StripeEvent) (db : Db) :
    Except (ℕ × String) (String × Db) :=
  if !secretCfg || !dbCfg then Except.ok ("ignored", db)
  else
    match verified with
    | none => Except.error (400, "Webhook inválido")
    | some ev =>
      if ev.type = "checkout.session.completed" then
        Except.ok ("ok", { db with usuarios := db.usuarios.map (fun u => if u.1 = ev.email then (u.1, "criador") else u) })
      else Except.ok ("ok", db)

@[simp] lemma except_isOk_ok {ε α : Type} (a : α) :
    (Except.ok a : Except ε α).isOk = true := rfl

@[simp] lemma except_isOk_error {ε α : Type} (e : ε) :
    (Except.error e : Except ε α).isOk = false := rfl

lemma get_or_create_usos (cfg : Bool) (db : Db) (email : String) :
    ((get_or_create_user cfg db email).2).usos = db.usos := by
  rw [get_or_create_user]
  by_cases h : cfg = false
  · rw [if_pos h]
  · rw [if_neg h]
    cases db.usuarios.find? (fun u => u.1 == email) <;> rfl

/-- **C1**. When the month's use count already meets the plan's allowance,
`full_process` answers exactly HTTP 403 with the message naming the plan
and the limit, before any expensive processing: the side-effect trace is
empty (no temp file, no extraction, no transcription) and the usage table
is unchanged (no `UsageRecord`). -/
theorem quota_gate_rejects (env : Env) (db : Db) (email : String)
    (hmail : (email == "") = false ∧ (email.data.contains '@') = true)
    (hq : limit_for (get_or_create_user env.cfg db email).1 ≤
      count_uses_this_month env.cfg (get_or_create_user env.cfg db email).2
        env.monthStart email) :
    full_process env db email =
      (Except.error (403, quotaMsg (get_or_create_user env.cfg db email).1
          (limit_for (get_or_create_user env.cfg db email).1)),
        (get_or_create_user env.cfg db email).2, []) ∧
    ((get_or_create_user env.cfg db email).2).usos = db.usos := by
  have h1 : ((email == "") || !(email.data.contains '@')) = false := by
    rw [hmail.1, hmail.2]; rfl
  refine ⟨?_, get_or_create_usos env.cfg db email⟩
  simp only [full_process, h1, Bool.false_eq_true, if_false]
  rw [if_pos hq]

/-- The behaviour `full_process` must have for the usage ledger (the body
of claim C2): exactly one `UsageRecord` appended iff the run delivers,
nothing appended on any failure, and a failing stage aborts the remaining
stages (no transcription/track/render effect after an extraction failure,
no track/render effect after a transcription failure). -/
def LedgerSpec (env : Env) (db : Db) (email : String) : Prop :=
  ((full_process env db email).1.isOk = true →
    ((full_process env db email).2.1).usos =
      db.usos ++ [⟨email, fileName ("temp/" ++ env.tempId ++ ".mp4"),
        (get_or_create_user env.cfg db email).1, env.now⟩]) ∧
  ((full_process env db email).1.isOk = false →
    ((full_process env db email).2.1).usos = db.usos) ∧
  (env.extractOk = false →
    ((full_process env db email).2.2).countP isTranscribedEv = 0 ∧
    ((full_process env db email).2.2).countP isWroteSrtEv = 0 ∧
    ((full_process env db email).2.2).countP isInvokedEv = 0) ∧
  (env.transcribe = none →
    ((full_process env db email).2.2).countP isWroteSrtEv = 0 ∧
    ((full_process env db email).2.2).countP isInvokedEv = 0)

/-- **C2**. With the store configured, a pipeline run appends exactly one
`UsageRecord` iff it completes successfully, and a failing stage aborts
all remaining stages with no `UsageRecord` written. -/
theorem usage_ledger_once_iff_delivered (env : Env) (db : Db) (email : String)
    (hcfg : env.cfg = true) : LedgerSpec env db email := by
  unfold LedgerSpec
  cases hm : ((email == "") || !(email.data.contains '@')) with
  | true =>
    simp only [full_process, hm]
    simp
  | false =>
    by_cases hg : limit_for (get_or_create_user true db email).1 ≤
        count_uses_this_month true (get_or_create_user true db email).2
          env.monthStart email
    · simp only [full_process, hm]
      simp [hcfg, hg, get_or_create_usos]
    · cases he : env.extractOk with
      | false =>
        simp only [full_process, hm]
        simp [hcfg, hg, he, get_or_create_usos, List.countP_cons,
          isTranscribedEv, isWroteSrtEv, isInvokedEv]
      | true =>
        cases ht : env.transcribe with
        | none =>
          simp only [full_process, hm]
          simp [hcfg, hg, he, ht, get_or_create_usos,
            List.countP_cons, isTranscribedEv, isWroteSrtEv, isInvokedEv]
        | some segs =>
          cases hb1 : env.exec (styledCmd ("temp/" ++ env.tempId ++ ".mp4")
              (beforeLastDot ("temp/" ++ env.tempId ++ ".mp4") ++ ".srt")) with
          | true =>
            simp only [full_process, hm]
            simp [hcfg, hg, he, ht, burn_subs, hb1, add_use,
              get_or_create_usos]
          | false =>
            cases hb2 : env.exec (plainCmd ("temp/" ++ env.tempId ++ ".mp4")
                (beforeLastDot ("temp/" ++ env.tempId ++ ".mp4") ++ ".srt")) with
            | true =>
              simp only [full_process, hm]
              simp [hcfg, hg, he, ht, burn_subs, hb1, hb2, add_use,
                get_or_create_usos]
            | false =>
              simp only [full_process, hm]
              simp [hcfg, hg, he, ht, burn_subs, hb1, hb2,
                get_or_create_usos]

/-- Witness fixture: a fully configured environment whose external stages
all succeed. -/
def envW : Env :=
  { cfg := true, monthStart := 0, now := 7, tempId := "u", extractOk := true,
    transcribe := some [{ start := 0, «end» := 1, text := "hi" }],
    exec := fun _ => true }

/-- Witness fixture: the store after three uses by `a@b.com` this month. -/
def dbFull : Db :=
  { usuarios := [("a@b.com", "gratuito")],
    usos := [{ email := "a@b.com", video_nome := "v1", plano := "gratuito", data := 1 },
      { email := "a@b.com", video_nome := "v2", plano := "gratuito", data := 2 },
      { email := "a@b.com", video_nome := "v3", plano := "gratuito", data := 3 }] }

/-- Witness fixture: an empty store. -/
def dbEmpty : Db := { usuarios := [], usos := [] }

/-- **C1** (witness): a free-tier user with three uses this month is
rejected with 403 and an empty effect trace. -/
theorem quota_gate_rejects_witness :
    (("a@b.com" == "") = false ∧ ("a@b.com".data.contains '@') = true) ∧
    limit_for (get_or_create_user envW.cfg dbFull "a@b.com").1 ≤
      count_uses_this_month envW.cfg (get_or_create_user envW.cfg dbFull "a@b.com").2
        envW.monthStart "a@b.com" ∧
    (full_process envW dbFull "a@b.com" =
      (Except.error (403, quotaMsg (get_or_create_user envW.cfg dbFull "a@b.com").1
          (limit_for (get_or_create_user envW.cfg dbFull "a@b.com").1)),
        (get_or_create_user envW.cfg dbFull "a@b.com").2, []) ∧
      ((get_or_create_user envW.cfg dbFull "a@b.com").2).usos = dbFull.usos) :=
  ⟨⟨by decide, by decide⟩, by decide,
    quota_gate_rejects envW dbFull "a@b.com" ⟨by decide, by decide⟩ (by decide)⟩

/-- **C2** (witness): the ledger behaviour at a configured environment with
an empty store. -/
theorem usage_ledger_once_iff_delivered_witness :
    envW.cfg = true ∧ LedgerSpec envW dbEmpty "a@b.com" :=
  ⟨rfl, usage_ledger_once_iff_delivered envW dbEmpty "a@b.com" rfl⟩

/-- **C9** (counterexample). With billing and store configured, a verified
event of the unrecognized type `"invoice.paid"` produces no store mutation
but the body `{"status": "ok"}` — not the claimed `{"status": "ignored"}`
(which the code returns only when unconfigured). -/
theorem stripe_webhook_counterexample :
    stripe_webhook true true (some { type := "invoice.paid", email := "a@b.com" })
        { usuarios := [("a@b.com", "gratuito")], usos := [] } =
      Except.ok ("ok", { usuarios := [("a@b.com", "gratuito")], usos := [] }) ∧
    ("ok" : String) ≠ "ignored" :=
  ⟨rfl, by decide⟩

/-- **C9** (amended). With billing and store configured, a verified webhook
whose event type is not `"checkout.session.completed"` performs no store
mutation and returns 200 with body `{"status": "ok"}` (the
`{"status": "ignored"}` body is reserved for the unconfigured case). -/
theorem stripe_webhook_unrecognized (ev : StripeEvent) (db : Db)
    (h : ev.type ≠ "checkout.session.completed") :
    stripe_webhook true true (some ev) db = Except.ok ("ok", db) := by
  rw [stripe_webhook]
  simp [h]

/-- **C9** (witness): the amended theorem at the event type
`"invoice.paid"` over the empty store. -/
theorem stripe_webhook_unrecognized_witness :
    ({ type := "invoice.paid", email := "a@b.com" : StripeEvent }).type ≠
      "checkout.session.completed" ∧
    stripe_webhook true true (some { type := "invoice.paid", email := "a@b.com" })
        dbEmpty = Except.ok ("ok", dbEmpty) :=
  ⟨by decide, stripe_webhook_unrecognized
    { type := "invoice.paid", email := "a@b.com" } dbEmpty (by decide)⟩

/-- **C10**. With the record-store client unconfigured, the plan resolver
returns the free tier for every email without touching the store, the
monthly-use counter returns 0, recording a use is a no-op, and the quota
gate never answers 403 (0 is below the free allowance 3). -/
theorem unconfigured_store_free_tier (env : Env) (db : Db)
    (email vn pl : String) (t : ℕ) (hcfg : env.cfg = false) :
    get_or_create_user env.cfg db email = ("gratuito", db) ∧
    count_uses_this_month env.cfg db env.monthStart email = 0 ∧
    add_use env.cfg db email vn pl t = db ∧
    ∀ c m, (full_process env db email).1 = Except.error (c, m) → c ≠ 403 := by
  refine ⟨by rw [get_or_create_user, if_pos hcfg],
    by rw [count_uses_this_month, if_pos hcfg],
    by rw [add_use, if_pos hcfg], ?_⟩
  intro c m h
  cases hm : ((email == "") || !(email.data.contains '@')) with
  | true =>
    simp only [full_process, hm] at h
    simp at h
    omega
  | false =>
    cases he : env.extractOk with
    | false =>
      simp only [full_process, hm] at h
      simp [hcfg, he, get_or_create_user, count_uses_this_month, limit_for] at h
      omega
    | true =>
      cases ht : env.transcribe with
      | none =>
        simp only [full_process, hm] at h
        simp [hcfg, he, ht, get_or_create_user, count_uses_this_month,
          limit_for] at h
        omega
      | some segs =>
        cases hb1 : env.exec (styledCmd ("temp/" ++ env.tempId ++ ".mp4")
            (beforeLastDot ("temp/" ++ env.tempId ++ ".mp4") ++ ".srt")) with
        | true =>
          simp only [full_process, hm] at h
          simp [hcfg, he, ht, get_or_create_user, count_uses_this_month,
            limit_for, burn_subs, hb1] at h
        | false =>
          cases hb2 : env.exec (plainCmd ("temp/" ++ env.tempId ++ ".mp4")
              (beforeLastDot ("temp/" ++ env.tempId ++ ".mp4") ++ ".srt")) with
          | true =>
            simp only [full_process, hm] at h
            simp [hcfg, he, ht, get_or_create_user, count_uses_this_month,
              limit_for, burn_subs, hb1, hb2] at h
          | false =>
            simp only [full_process, hm] at h
            simp [hcfg, he, ht, get_or_create_user, count_uses_this_month,
              limit_for, burn_subs, hb1, hb2] at h
            omega

/-- Witness fixture: `envW` with the store client unconfigured. -/
def envOff : Env := { envW with cfg := false }

/-- **C10** (witness): the unconfigured-store behaviour on the empty store. -/
theorem unconfigured_store_free_tier_witness :
    envOff.cfg = false ∧
    (get_or_create_user envOff.cfg dbEmpty "a@b.com" = ("gratuito", dbEmpty) ∧
      count_uses_this_month envOff.cfg dbEmpty envOff.monthStart "a@b.com" = 0 ∧
      add_use envOff.cfg dbEmpty "a@b.com" "v" "gratuito" 7 = dbEmpty ∧
      ∀ c m, (full_process envOff dbEmpty "a@b.com").1 = Except.error (c, m) → c ≠ 403) :=
  ⟨rfl, unconfigured_store_free_tier envOff dbEmpty "a@b.com" "v" "gratuito" 7 rfl⟩

end Backend
